import Mathlib

set_option maxRecDepth 8192

/-!
Shallow embedding of the Room Allocation & Stay Lifecycle Engine of
`src/app.py` (class `FrontOfficeDB`), together with proofs of the
specification's claims about it.

Modelling conventions:
* SQLite TEXT dates/timestamps are Lean `String`s compared with the
  lexicographic order, which is exactly SQLite's TEXT comparison.
* Table rows are records in Lean lists kept in rowid order; `fetch_one`
  becomes `List.find?`, `UPDATE ... WHERE` a `List.map`, `DELETE ... WHERE`
  a `List.filter`, and `INSERT` an append with a fresh autoincrement id.
* `CURRENT_TIMESTAMP` / `datetime('now')` is an explicit `now` argument.
* Python `str.strip` and `int(...)` / `int(float(...))` are modelled on
  ASCII strings by `pyStrip`, `pyInt` and `pyFloatIntStr` below.
-/

/-- Python `str.strip()` whitespace predicate (ASCII whitespace). -/
def isPySpace (c : Char) : Bool :=
  c = ' ' || c = '\t' || c = '\n' || c = '\r' || c = '\x0b' || c = '\x0c'

/-- Python `str.strip()` on an ASCII string: drop leading and trailing whitespace. -/
def pyStrip (s : String) : String :=
  String.mk (((s.toList.dropWhile isPySpace).reverse.dropWhile isPySpace).reverse)

/-- Decimal digit run with single underscores allowed between digits,
as Python's integer-literal grammar accepts after the first digit. -/
def pyDigitsTail : List Char → Bool
  | [] => true
  | '_' :: c :: rest => c.isDigit && pyDigitsTail rest
  | c :: rest => c.isDigit && pyDigitsTail rest

/-- A valid unsigned Python decimal integer literal: at least one digit,
underscores only between digits. -/
def pyUnsignedIntValid : List Char → Bool
  | [] => false
  | c :: rest => c.isDigit && pyDigitsTail rest

/-- Numeric value of a digit string, ignoring underscore separators. -/
def digitsVal (cs : List Char) : Nat :=
  (cs.filter (fun c => c ≠ '_')).foldl (fun a c => 10 * a + (c.toNat - 48)) 0

/-- Python `int(s)` on an ASCII string already stripped of surrounding
whitespace: optional sign followed by a decimal literal; `none` models the
`ValueError` raised on anything else. -/
def pyInt (s : String) : Option Int :=
  match s.toList with
  | '+' :: rest => if pyUnsignedIntValid rest then some (Int.ofNat (digitsVal rest)) else none
  | '-' :: rest => if pyUnsignedIntValid rest then some (-(Int.ofNat (digitsVal rest))) else none
  | cs => if pyUnsignedIntValid cs then some (Int.ofNat (digitsVal cs)) else none

/-- Integer part of a Python decimal float literal (no exponent form):
`digits [ '.' digits ]` with at least one digit somewhere.  Returns the
magnitude truncated toward zero, i.e. the value of the integer-part digits.
`none` models `ValueError` from `float(...)`. -/
def floatBody? (cs : List Char) : Option Nat :=
  let ip := cs.takeWhile Char.isDigit
  let rest := cs.dropWhile Char.isDigit
  match rest with
  | [] => if ip.isEmpty then none else some (digitsVal ip)
  | '.' :: frac =>
    if ip.isEmpty && frac.isEmpty then none
    else if frac.all Char.isDigit then some (digitsVal ip)
    else none
  | _ => none

/-- Python `str(int(float(s)))` on an ASCII string already stripped of
surrounding whitespace, for plain decimal literals (sign, digits, optional
fractional part; exponent forms, `inf`/`nan` and binary-rounding corner
cases are outside the modelled domain).  `int` truncates toward zero, so
the result is the sign applied to the integer-part digits; `-0` collapses
to `0` exactly as in Python. -/
def pyFloatIntStr (s : String) : Option String :=
  match s.toList with
  | '+' :: rest => (floatBody? rest).map (fun n => toString (Int.ofNat n))
  | '-' :: rest => (floatBody? rest).map (fun n => toString (-(Int.ofNat n)))
  | cs => (floatBody? cs).map (fun n => toString (Int.ofNat n))

/-- Python's `c in s` membership test for a character in a string. -/
def pyContainsChar (s : String) (c : Char) : Bool :=
  s.toList.contains c

/-- Lexicographic strict order on character lists. -/
def textLt : List Char → List Char → Bool
  | [], [] => false
  | [], _ :: _ => true
  | _ :: _, [] => false
  | a :: as, b :: bs => if a < b then true else if b < a then false else textLt as bs

/-- SQLite's `<` on two TEXT values (byte-wise comparison, which on the
ASCII ISO date/timestamp strings the engine stores is the lexicographic
character order). -/
def sqliteLt (s t : String) : Bool :=
  textLt s.toList t.toList

/-- Fixed room inventory blocks of `src/app.py`: inclusive ranges. -/
def ROOM_BLOCKS : List (Int × Int) :=
  [(100, 115), (300, 313), (400, 413), (500, 513), (600, 613), (700, 709),
   (800, 809), (900, 909), (1000, 1009), (1100, 1109), (1200, 1209),
   (1300, 1309), (1400, 1409), (1500, 1509), (1600, 1609), (1700, 1705)]

/-- The `", "`-joined rendering of `ROOM_BLOCKS` used in the out-of-range
error message of `is_valid_room_number`. -/
def valid_ranges_str : String :=
  String.intercalate ", " (ROOM_BLOCKS.map (fun p => toString p.1 ++ "-" ++ toString p.2))

/-- `FrontOfficeDB.is_valid_room_number` (src/app.py lines 456-478):
empty check, decimal-point check, `int` parse, then the first `ROOM_BLOCKS`
range containing the value accepts it as `str(room_int)`. -/
def is_valid_room_number (room_number : String) : Bool × String :=
  if pyStrip room_number = "" then (false, "Room number cannot be empty")
  else if pyContainsChar (pyStrip room_number) '.' then
    (false, "Room number cannot have decimals. Use whole numbers only")
  else
    match pyInt (pyStrip room_number) with
    | none => (false, "Room number must be a valid whole number")
    | some room_int =>
      match ROOM_BLOCKS.find? (fun p => decide (p.1 ≤ room_int) && decide (room_int ≤ p.2)) with
      | some _ => (true, toString room_int)
      | none =>
        (false, "Room " ++ toString room_int ++ " not in valid ranges: " ++ valid_ranges_str)

inductive RoomStatus where
  | VACANT
  | OCCUPIED
deriving DecidableEq, Repr

inductive StayStatus where
  | EXPECTED
  | CHECKED_IN
  | CHECKED_OUT
deriving DecidableEq, Repr

/-- A row of the `reservations` table (the columns the engine reads).
Dates are ISO-format TEXT; `room_number` is NULL until allocated. -/
structure Reservation where
  id : Nat
  arrival_date : String
  depart_date : String
  room_number : Option String
  guest_name : String
  reservation_no : String
deriving DecidableEq, Repr

/-- A row of the `stays` table.  `checkin_actual` / `checkout_actual` are
NULLable TEXT timestamps. -/
structure Stay where
  id : Nat
  reservation_id : Nat
  room_number : String
  status : StayStatus
  checkin_planned : String
  checkout_planned : String
  checkin_actual : Option String
  checkout_actual : Option String
deriving DecidableEq, Repr

/-- A row of the `rooms` table (`room_number` is the primary key). -/
structure Room where
  room_number : String
  status : RoomStatus
deriving DecidableEq, Repr

/-- The SQLite store as the engine sees it: the three tables in rowid
order plus the next autoincrement id for `stays`. -/
structure DBState where
  reservations : List Reservation
  stays : List Stay
  rooms : List Room
  nextStayId : Nat
deriving DecidableEq, Repr

/-- Python truthiness of a nullable TEXT column: NULL and `""` are falsy. -/
def pyTruthy : Option String → Bool
  | none => false
  | some s => s ≠ ""

/-- The WHERE clause of `check_room_available_for_assignment`
(src/app.py lines 489-499): same room number, strict half-open interval
intersection (`arrival_date < ?` / `depart_date > ?` on TEXT dates), and
the optional `AND r.id != ?` exclusion. -/
def assignment_conflict_pred (arrival_date depart_date : String)
    (exclude_reservation_id : Option Nat) (rn : String) (r : Reservation) : Bool :=
  decide (r.room_number = some rn) &&
  sqliteLt r.arrival_date depart_date &&
  sqliteLt arrival_date r.depart_date &&
  (match exclude_reservation_id with
   | some eid => decide (r.id ≠ eid)
   | none => true)

/-- `FrontOfficeDB.check_room_available_for_assignment`
(src/app.py lines 480-505): empty-room input short-circuits to available;
the room argument is normalized by `str(int(float(...)))`; then the first
reservation (rowid order, `fetch_one` with no ORDER BY) matching
`assignment_conflict_pred` is reported as the conflict. -/
def check_room_available_for_assignment (reservations : List Reservation)
    (room_number : String) (arrival_date depart_date : String)
    (exclude_reservation_id : Option Nat) : Bool × String :=
  if pyStrip room_number = "" then (true, "")
  else
    match pyFloatIntStr (pyStrip room_number) with
    | none => (false, "Invalid room number format")
    | some rn =>
      match reservations.find?
          (assignment_conflict_pred arrival_date depart_date exclude_reservation_id rn) with
      | some conflict =>
        (false, "Room " ++ rn ++ " occupied by " ++ conflict.guest_name ++
          " (Res #" ++ conflict.reservation_no ++ ")")
      | none => (true, "")

/-- `FrontOfficeDB.ensure_room_exists` (src/app.py lines 644-650):
`INSERT ... ON CONFLICT (room_number) DO NOTHING` of the stripped room
number with status VACANT; falsy input is a no-op. -/
def ensure_room_exists (rooms : List Room) (room_number : String) : List Room :=
  if room_number = "" then rooms
  else if rooms.any (fun r => decide (r.room_number = pyStrip room_number)) then rooms
  else rooms ++ [{ room_number := pyStrip room_number, status := RoomStatus.VACANT }]

/-- `FrontOfficeDB.checkin_reservation` (src/app.py lines 657-684):
guards are reservation existence, a truthy assigned room and
`is_valid_room_number`; on success a CHECKED_IN stay with the
reservation's planned dates and `checkin_actual = now` is inserted and the
room is set OCCUPIED.  No availability check is performed here. -/
def checkin_reservation (st : DBState) (res_id : Nat) (now : String) :
    DBState × Bool × String :=
  match st.reservations.find? (fun r => decide (r.id = res_id)) with
  | none => (st, false, "Reservation not found")
  | some res =>
    if pyTruthy res.room_number = false then (st, false, "Assign a room first")
    else
      let v := is_valid_room_number (res.room_number.getD "")
      if v.1 = false then (st, false, v.2)
      else
        let result := v.2
        let rooms1 := ensure_room_exists st.rooms result
        let newStay : Stay :=
          { id := st.nextStayId, reservation_id := res_id, room_number := result,
            status := StayStatus.CHECKED_IN, checkin_planned := res.arrival_date,
            checkout_planned := res.depart_date, checkin_actual := some now,
            checkout_actual := none }
        let rooms2 := rooms1.map (fun r =>
          if r.room_number = result then { r with status := RoomStatus.OCCUPIED } else r)
        ({ st with
            stays := st.stays ++ [newStay],
            rooms := rooms2,
            nextStayId := st.nextStayId + 1 }, true, "Checked in successfully")

/-- `FrontOfficeDB.checkout_stay` (src/app.py lines 780-823, the later
definition, which overrides the earlier one): an existing stay is marked
CHECKED_OUT with `checkout_actual = now` and its room set VACANT;
otherwise the id is treated as a reservation id and, when that
reservation exists with a truthy room, a terminal CHECKED_OUT stay is
synthesized from its room/dates and the room set VACANT. -/
def checkout_stay (st : DBState) (stay_id : Nat) (now : String) :
    DBState × Bool × String :=
  match st.stays.find? (fun s => decide (s.id = stay_id)) with
  | some stay =>
    let stays1 := st.stays.map (fun s =>
      if s.id = stay_id then
        { s with status := StayStatus.CHECKED_OUT, checkout_actual := some now }
      else s)
    let rooms1 := st.rooms.map (fun r =>
      if r.room_number = stay.room_number then { r with status := RoomStatus.VACANT } else r)
    ({ st with stays := stays1, rooms := rooms1 }, true, "Checked out successfully")
  | none =>
    match st.reservations.find? (fun r => decide (r.id = stay_id)) with
    | none => (st, false, "Reservation not found or no room assigned")
    | some res =>
      if pyTruthy res.room_number = false then
        (st, false, "Reservation not found or no room assigned")
      else
        let rm := res.room_number.getD ""
        let newStay : Stay :=
          { id := st.nextStayId, reservation_id := stay_id, room_number := rm,
            status := StayStatus.CHECKED_OUT, checkin_planned := res.arrival_date,
            checkout_planned := res.depart_date, checkin_actual := some now,
            checkout_actual := some now }
        let rooms1 := st.rooms.map (fun r =>
          if r.room_number = rm then { r with status := RoomStatus.VACANT } else r)
        ({ st with
            stays := st.stays ++ [newStay],
            rooms := rooms1,
            nextStayId := st.nextStayId + 1 }, true, "Checked out successfully")

/-- `FrontOfficeDB.cancel_checkin` (src/app.py lines 430-440): delete the
stay row and set its room VACANT. -/
def cancel_checkin (st : DBState) (stay_id : Nat) : DBState × Bool × String :=
  match st.stays.find? (fun s => decide (s.id = stay_id)) with
  | none => (st, false, "Stay not found")
  | some stay =>
    let stays1 := st.stays.filter (fun s => decide (s.id ≠ stay_id))
    let rooms1 := st.rooms.map (fun r =>
      if r.room_number = stay.room_number then { r with status := RoomStatus.VACANT } else r)
    ({ st with stays := stays1, rooms := rooms1 }, true, "Check-in cancelled successfully")

/-- `FrontOfficeDB.cancel_checkout` (src/app.py lines 443-452): only a
CHECKED_OUT stay can be reverted; it goes back to CHECKED_IN with
`checkout_actual` cleared and its room set OCCUPIED. -/
def cancel_checkout (st : DBState) (stay_id : Nat) : DBState × Bool × String :=
  match st.stays.find? (fun s => decide (s.id = stay_id)) with
  | none => (st, false, "Stay not found")
  | some stay =>
    if stay.status ≠ StayStatus.CHECKED_OUT then (st, false, "Not checked out")
    else
      let stays1 := st.stays.map (fun s =>
        if s.id = stay_id then
          { s with status := StayStatus.CHECKED_IN, checkout_actual := none }
        else s)
      let rooms1 := st.rooms.map (fun r =>
        if r.room_number = stay.room_number then { r with status := RoomStatus.OCCUPIED } else r)
      ({ st with stays := stays1, rooms := rooms1 }, true,
        "Check-out cancelled - room " ++ stay.room_number ++ " back to in-house")

/-- One iteration of the loop in `sync_room_status_from_stays`
(src/app.py lines 843-847): `UPDATE rooms SET status = 'OCCUPIED' WHERE
room_number = ?`. -/
def occupyRooms (acc : List Room) (rn : String) : List Room :=
  acc.map (fun r => if r.room_number = rn then { r with status := RoomStatus.OCCUPIED } else r)

/-- The `SELECT DISTINCT room_number FROM stays WHERE status = 'CHECKED_IN'`
of `sync_room_status_from_stays` (src/app.py line 842). -/
def occupiedRoomNumbers (stays : List Stay) : List String :=
  ((stays.filter (fun s => decide (s.status = StayStatus.CHECKED_IN))).map
    (fun s => s.room_number)).dedup

/-- `FrontOfficeDB.sync_room_status_from_stays` (src/app.py lines 840-847):
set every room VACANT, then set OCCUPIED each room number that appears in
a CHECKED_IN stay. -/
def sync_room_status_from_stays (st : DBState) : DBState :=
  let rooms0 := st.rooms.map (fun r => { r with status := RoomStatus.VACANT })
  let rooms1 := (occupiedRoomNumbers st.stays).foldl occupyRooms rooms0
  { st with rooms := rooms1 }

/-- The planned intervals of two stays overlap under the half-open
`[checkin, checkout)` convention. -/
def staysOverlap (s₁ s₂ : Stay) : Prop :=
  sqliteLt s₁.checkin_planned s₂.checkout_planned = true ∧
  sqliteLt s₂.checkin_planned s₁.checkout_planned = true

instance (s₁ s₂ : Stay) : Decidable (staysOverlap s₁ s₂) := by
  unfold staysOverlap; infer_instance

/-- The spec invariant of §3: for a given room number no two stays with
status CHECKED_IN have overlapping planned half-open intervals. -/
def noOverlappingCheckedIn (stays : List Stay) : Prop :=
  stays.Pairwise (fun s₁ s₂ =>
    s₁.status = StayStatus.CHECKED_IN → s₂.status = StayStatus.CHECKED_IN →
    s₁.room_number = s₂.room_number → ¬ staysOverlap s₁ s₂)

instance (stays : List Stay) : Decidable (noOverlappingCheckedIn stays) := by
  unfold noOverlappingCheckedIn; infer_instance

/-- The spec invariant of §3: at most one active (CHECKED_IN) stay may
reference a reservation at a time. -/
def atMostOneActiveStayPerReservation (stays : List Stay) : Prop :=
  stays.Pairwise (fun s₁ s₂ =>
    ¬(s₁.status = StayStatus.CHECKED_IN ∧ s₂.status = StayStatus.CHECKED_IN ∧
      s₁.reservation_id = s₂.reservation_id))

instance (stays : List Stay) : Decidable (atMostOneActiveStayPerReservation stays) := by
  unfold atMostOneActiveStayPerReservation; infer_instance

/-- `needle` occurs as a contiguous substring of `hay`. -/
def strContains (hay needle : String) : Bool :=
  (List.range (hay.length + 1)).any (fun i => needle.toList.isPrefixOf (hay.toList.drop i))

/-- A concrete store exercising the synchronizer: one CHECKED_IN stay in
room 105, rooms 105 and 300 present with stale statuses. -/
def stW5 : DBState :=
  { reservations := []
    stays := [{ id := 1, reservation_id := 1, room_number := "105",
                status := StayStatus.CHECKED_IN, checkin_planned := "2025-06-01",
                checkout_planned := "2025-06-05", checkin_actual := some "2025-06-01 14:00:00",
                checkout_actual := none }]
    rooms := [{ room_number := "105", status := RoomStatus.VACANT },
              { room_number := "300", status := RoomStatus.OCCUPIED }]
    nextStayId := 2 }

/-- A sample reservation row used to instantiate the C10 theorem. -/
def resW10 : Reservation :=
  { id := 7, arrival_date := "2025-06-01", depart_date := "2025-06-05",
    room_number := some "105", guest_name := "Carol Jones", reservation_no := "9001" }

/-- A reservation with room 300 used to instantiate the C4 theorem. -/
def resW4 : Reservation :=
  { id := 4, arrival_date := "2025-07-01", depart_date := "2025-07-04",
    room_number := some "300", guest_name := "Dana Lee", reservation_no := "9002" }

/-- The CHECKED_IN occupant of room 105 from the spec's scenario, as the
reservation row the availability scan reads. -/
def resC9 : Reservation :=
  { id := 1, arrival_date := "2025-06-01", depart_date := "2025-06-05",
    room_number := some "105", guest_name := "Alice Smith", reservation_no := "7001" }

/-- The spec scenario for C6: an id that matches no stay but matches a
reservation holding room 210. -/
def resW6 : Reservation :=
  { id := 9, arrival_date := "2025-08-01", depart_date := "2025-08-03",
    room_number := some "210", guest_name := "Evan Poe", reservation_no := "9100" }

def stW6 : DBState :=
  { reservations := [resW6]
    stays := []
    rooms := [{ room_number := "210", status := RoomStatus.OCCUPIED }]
    nextStayId := 1 }

/-- Concrete data instantiating both halves of the C7 theorem. -/
def resW7 : Reservation :=
  { id := 3, arrival_date := "2025-09-01", depart_date := "2025-09-02",
    room_number := some "400", guest_name := "Fay Wong", reservation_no := "9200" }

def stW7 : DBState :=
  { reservations := [resW7], stays := [], rooms := [], nextStayId := 1 }

def stayW7 : Stay :=
  { id := 5, reservation_id := 3, room_number := "401", status := StayStatus.CHECKED_IN,
    checkin_planned := "2025-09-01", checkout_planned := "2025-09-02",
    checkin_actual := some "2025-09-01 12:00:00", checkout_actual := none }

def stW7b : DBState :=
  { reservations := [resW7]
    stays := [stayW7]
    rooms := [{ room_number := "401", status := RoomStatus.OCCUPIED }]
    nextStayId := 6 }

/-- The spec's C1 scenario, as stored data: guest A holds room 105
CHECKED_IN over [2025-06-01, 2025-06-05); guest B's reservation asks for
room 105 over [2025-06-03, 2025-06-07). -/
def resA_C1 : Reservation :=
  { id := 1, arrival_date := "2025-06-01", depart_date := "2025-06-05",
    room_number := some "105", guest_name := "Guest A", reservation_no := "5001" }

def resB_C1 : Reservation :=
  { id := 2, arrival_date := "2025-06-03", depart_date := "2025-06-07",
    room_number := some "105", guest_name := "Guest B", reservation_no := "5002" }

def stayA_C1 : Stay :=
  { id := 1, reservation_id := 1, room_number := "105", status := StayStatus.CHECKED_IN,
    checkin_planned := "2025-06-01", checkout_planned := "2025-06-05",
    checkin_actual := some "2025-06-01 14:00:00", checkout_actual := none }

def stC1 : DBState :=
  { reservations := [resA_C1, resB_C1]
    stays := [stayA_C1]
    rooms := [{ room_number := "105", status := RoomStatus.OCCUPIED }]
    nextStayId := 2 }

/-- Reservation data for the C2 trace: one reservation with room 105
already assigned (as external ingestion supplies it). -/
def resC2 : Reservation :=
  { id := 1, arrival_date := "2025-06-01", depart_date := "2025-06-05",
    room_number := some "105", guest_name := "Guest A", reservation_no := "5001" }

def stC2 : DBState :=
  { reservations := [resC2], stays := [], rooms := [], nextStayId := 1 }

/-- Reservation data for the C8 trace. -/
def resC8 : Reservation :=
  { id := 4, arrival_date := "2025-10-01", depart_date := "2025-10-03",
    room_number := some "500", guest_name := "Guest H", reservation_no := "5008" }

def stC8 : DBState :=
  { reservations := [resC8], stays := [], rooms := [], nextStayId := 1 }

theorem find?_map_of_pred_inv {α : Type} (f : α → α) (p : α → Bool)
    (hf : ∀ a, p (f a) = p a) (l : List α) :
    (l.map f).find? p = (l.find? p).map f := by
  induction l with
  | nil => rfl
  | cons a l ih =>
    by_cases hp : p a = true
    · simp [List.find?_cons, hf, hp]
    · simp only [Bool.not_eq_true] at hp
      simp [List.find?_cons, hf, hp, ih]

theorem find?_append_of_all_false {α : Type} (p : α → Bool) (l₁ l₂ : List α)
    (h : ∀ a ∈ l₁, p a = false) :
    (l₁ ++ l₂).find? p = l₂.find? p := by
  rw [List.find?_append]
  have h₁ : l₁.find? p = none := List.find?_eq_none.mpr (by
    intro a ha
    simp [h a ha])
  simp [h₁]

theorem foldl_occupyRooms_eq_map (l : List String) (rs : List Room) :
    l.foldl occupyRooms rs =
      rs.map (fun r =>
        if r.room_number ∈ l then { r with status := RoomStatus.OCCUPIED } else r) := by
  induction l generalizing rs with
  | nil => simp
  | cons a l ih =>
    rw [List.foldl_cons, ih]
    unfold occupyRooms
    rw [List.map_map]
    refine List.map_congr_left ?_
    intro r _
    by_cases h : r.room_number = a
    · by_cases hl : r.room_number ∈ l <;>
        simp [Function.comp, h, hl, List.mem_cons]
    · by_cases hl : r.room_number ∈ l <;>
        simp [Function.comp, h, hl, List.mem_cons]

theorem mem_occupiedRoomNumbers (stays : List Stay) (rn : String) :
    rn ∈ occupiedRoomNumbers stays ↔
      ∃ s ∈ stays, s.status = StayStatus.CHECKED_IN ∧ s.room_number = rn := by
  unfold occupiedRoomNumbers
  simp [List.mem_dedup, List.mem_map, List.mem_filter]
  constructor
  · rintro ⟨s, ⟨hs, hstat⟩, hrn⟩
    exact ⟨s, hs, hstat, hrn⟩
  · rintro ⟨s, hs, hstat, hrn⟩
    exact ⟨s, ⟨hs, hstat⟩, hrn⟩

theorem sync_rooms_eq_map (st : DBState) :
    (sync_room_status_from_stays st).rooms =
      st.rooms.map (fun r =>
        if r.room_number ∈ occupiedRoomNumbers st.stays
        then { r with status := RoomStatus.OCCUPIED }
        else { r with status := RoomStatus.VACANT }) := by
  unfold sync_room_status_from_stays
  simp only []
  rw [foldl_occupyRooms_eq_map, List.map_map]
  refine List.map_congr_left ?_
  intro r _
  by_cases h : r.room_number ∈ occupiedRoomNumbers st.stays <;>
    simp [Function.comp, h]

theorem sync_stays_unchanged (st : DBState) :
    (sync_room_status_from_stays st).stays = st.stays := rfl

/-- C5: after `sync_room_status_from_stays`, every room present in the
inventory has status OCCUPIED iff at least one CHECKED_IN stay references
its room number, for arbitrary stay datasets (with zero stays every room
is VACANT, since the right-hand side is then false); the synchronizer is a
total function, and running it a second time leaves the state unchanged. -/
theorem c5_sync_room_status_spec :
    (∀ (st : DBState) (r : Room), r ∈ (sync_room_status_from_stays st).rooms →
      (r.status = RoomStatus.OCCUPIED ↔
        ∃ s ∈ st.stays, s.status = StayStatus.CHECKED_IN ∧ s.room_number = r.room_number)) ∧
    (∀ st : DBState,
      sync_room_status_from_stays (sync_room_status_from_stays st) =
        sync_room_status_from_stays st) := by
  constructor
  · intro st r hr
    rw [sync_rooms_eq_map] at hr
    obtain ⟨r₀, hr₀, rfl⟩ := List.mem_map.mp hr
    by_cases h : r₀.room_number ∈ occupiedRoomNumbers st.stays
    · rw [if_pos h]
      constructor
      · intro _
        exact (mem_occupiedRoomNumbers st.stays r₀.room_number).mp h
      · intro _
        rfl
    · rw [if_neg h]
      constructor
      · intro hc
        simp at hc
      · intro hex
        exact absurd ((mem_occupiedRoomNumbers st.stays r₀.room_number).mpr hex) h
  · intro st
    have hrooms : (sync_room_status_from_stays (sync_room_status_from_stays st)).rooms =
        (sync_room_status_from_stays st).rooms := by
      rw [sync_rooms_eq_map (sync_room_status_from_stays st), sync_stays_unchanged,
        sync_rooms_eq_map st, List.map_map]
      refine List.map_congr_left ?_
      intro r _
      by_cases h : r.room_number ∈ occupiedRoomNumbers st.stays <;>
        simp [Function.comp, h]
    calc sync_room_status_from_stays (sync_room_status_from_stays st)
        = { st with rooms := (sync_room_status_from_stays (sync_room_status_from_stays st)).rooms } := rfl
      _ = { st with rooms := (sync_room_status_from_stays st).rooms } := by rw [hrooms]
      _ = sync_room_status_from_stays st := rfl

theorem c5_sync_room_status_spec_witness :
    (Room.mk "105" RoomStatus.OCCUPIED).status = RoomStatus.OCCUPIED ↔
      ∃ s ∈ stW5.stays, s.status = StayStatus.CHECKED_IN ∧
        s.room_number = (Room.mk "105" RoomStatus.OCCUPIED).room_number :=
  c5_sync_room_status_spec.1 stW5 (Room.mk "105" RoomStatus.OCCUPIED) (by decide)

/-- C10: `check_room_available_for_assignment` reports available with an
empty message whenever the room-number argument is empty or whitespace
only, regardless of the reservation data (no range validation, no
conflict scan), and a non-available result can only arise for a non-empty
argument. -/
theorem c10_empty_room_arg_available (reservations : List Reservation)
    (room_number arrival_date depart_date : String) (excl : Option Nat) :
    (pyStrip room_number = "" →
      check_room_available_for_assignment reservations room_number arrival_date depart_date excl
        = (true, "")) ∧
    ((check_room_available_for_assignment reservations room_number arrival_date depart_date
        excl).1 = false → pyStrip room_number ≠ "") := by
  constructor
  · intro h
    simp [check_room_available_for_assignment, h]
  · intro hfail heq
    simp [check_room_available_for_assignment, heq] at hfail

theorem c10_empty_room_arg_available_witness :
    check_room_available_for_assignment [resW10] "   " "2025-06-01" "2025-06-05" none
      = (true, "") :=
  (c10_empty_room_arg_available [resW10] "   " "2025-06-01" "2025-06-05" none).1 (by decide)

theorem assignment_conflict_pred_eq_true (arrival_date depart_date : String)
    (excl : Option Nat) (rn : String) (r : Reservation) :
    assignment_conflict_pred arrival_date depart_date excl rn r = true ↔
      (r.room_number = some rn ∧ sqliteLt r.arrival_date depart_date = true ∧
        sqliteLt arrival_date r.depart_date = true ∧
        ∀ eid, excl = some eid → r.id ≠ eid) := by
  unfold assignment_conflict_pred
  cases excl <;> simp [and_assoc]

/-- C4: with a parseable non-empty room argument normalizing to `rn` and
`arrival < departure`, `check_room_available_for_assignment` reports
non-available exactly when some reservation other than the excluded one
has room `rn` and an interval overlapping `[arrival, departure)` under the
strict half-open test `existing_arrival < departure AND
existing_departure > arrival`; with `excl = some eid` the reservation
`eid` itself never triggers the conflict, and a reservation departing
exactly on `arrival` does not overlap. -/
theorem c4_check_room_available_spec (reservations : List Reservation)
    (room_number arrival_date depart_date : String) (excl : Option Nat) (rn : String)
    (_hdates : sqliteLt arrival_date depart_date = true)
    (hne : pyStrip room_number ≠ "")
    (hrn : pyFloatIntStr (pyStrip room_number) = some rn) :
    (check_room_available_for_assignment reservations room_number arrival_date depart_date
        excl).1 = false ↔
      ∃ r ∈ reservations, r.room_number = some rn ∧
        sqliteLt r.arrival_date depart_date = true ∧
        sqliteLt arrival_date r.depart_date = true ∧
        ∀ eid, excl = some eid → r.id ≠ eid := by
  unfold check_room_available_for_assignment
  rw [if_neg hne, hrn]
  cases hf : reservations.find? (assignment_conflict_pred arrival_date depart_date excl rn) with
  | some c =>
    have hc := List.find?_some hf
    have hmem := List.mem_of_find?_eq_some hf
    rw [assignment_conflict_pred_eq_true] at hc
    simp only [hf]
    constructor
    · intro _
      exact ⟨c, hmem, hc⟩
    · intro _
      trivial
  | none =>
    simp only [hf]
    constructor
    · intro hc
      exact absurd hc (by decide)
    · rintro ⟨r, hr, hprops⟩
      have := List.find?_eq_none.mp hf r hr
      rw [assignment_conflict_pred_eq_true] at this
      exact absurd hprops this

theorem c4_check_room_available_spec_witness :
    (check_room_available_for_assignment [resW4] "300" "2025-07-03" "2025-07-06" none).1
      = false :=
  (c4_check_room_available_spec [resW4] "300" "2025-07-03" "2025-07-06" none "300"
      (by decide) (by decide) (by decide)).mpr
    ⟨resW4, by decide, by decide, by decide, by decide, fun _ h => Option.noConfusion h⟩

/-- C9 counterexample: the availability check reports a conflict for room
105 over 2025-06-03..2025-06-07, but the message does not contain the
conflicting reservation's departure date 2025-06-05. -/
theorem c9_conflict_message_counterexample :
    (check_room_available_for_assignment [resC9] "105" "2025-06-03" "2025-06-07" none).1
        = false ∧
    strContains
      (check_room_available_for_assignment [resC9] "105" "2025-06-03" "2025-06-07" none).2
      resC9.depart_date = false := by decide

/-- C9 amended: when the availability scan finds a conflict, the message
names the first matching reservation's guest name and reservation number
(`Room {rn} occupied by {guest} (Res #{reservation_no})`), not the date
that guest's occupancy ends. -/
theorem c9_conflict_message_amended (reservations : List Reservation)
    (room_number arrival_date depart_date : String) (excl : Option Nat)
    (rn : String) (c : Reservation)
    (hne : pyStrip room_number ≠ "")
    (hrn : pyFloatIntStr (pyStrip room_number) = some rn)
    (hfind : reservations.find? (assignment_conflict_pred arrival_date depart_date excl rn)
      = some c) :
    check_room_available_for_assignment reservations room_number arrival_date depart_date excl
      = (false, "Room " ++ rn ++ " occupied by " ++ c.guest_name ++
          " (Res #" ++ c.reservation_no ++ ")") := by
  simp only [check_room_available_for_assignment, if_neg hne, hrn, hfind]

theorem c9_conflict_message_amended_witness :
    check_room_available_for_assignment [resC9] "105" "2025-06-03" "2025-06-07" none
      = (false, "Room 105 occupied by Alice Smith (Res #7001)") := by
  rw [c9_conflict_message_amended [resC9] "105" "2025-06-03" "2025-06-07" none "105" resC9
    (by decide) (by decide) (by decide)]
  decide

theorem ivrn_empty {s : String} (h : pyStrip s = "") :
    is_valid_room_number s = (false, "Room number cannot be empty") := by
  simp [is_valid_room_number, h]

theorem ivrn_decimal {s : String} (h1 : pyStrip s ≠ "")
    (h2 : pyContainsChar (pyStrip s) '.' = true) :
    is_valid_room_number s =
      (false, "Room number cannot have decimals. Use whole numbers only") := by
  simp [is_valid_room_number, h1, h2]

theorem ivrn_nonnumeric {s : String} (h1 : pyStrip s ≠ "")
    (h2 : pyContainsChar (pyStrip s) '.' = false) (hn : pyInt (pyStrip s) = none) :
    is_valid_room_number s = (false, "Room number must be a valid whole number") := by
  simp [is_valid_room_number, h1, h2, hn]

theorem ivrn_in_block {s : String} {n : Int} {p : Int × Int} (h1 : pyStrip s ≠ "")
    (h2 : pyContainsChar (pyStrip s) '.' = false) (hn : pyInt (pyStrip s) = some n)
    (hf : ROOM_BLOCKS.find? (fun p => decide (p.1 ≤ n) && decide (n ≤ p.2)) = some p) :
    is_valid_room_number s = (true, toString n) := by
  simp [is_valid_room_number, h1, h2, hn, hf]

theorem ivrn_out_of_range {s : String} {n : Int} (h1 : pyStrip s ≠ "")
    (h2 : pyContainsChar (pyStrip s) '.' = false) (hn : pyInt (pyStrip s) = some n)
    (hf : ROOM_BLOCKS.find? (fun p => decide (p.1 ≤ n) && decide (n ≤ p.2)) = none) :
    is_valid_room_number s =
      (false, "Room " ++ toString n ++ " not in valid ranges: " ++ valid_ranges_str) := by
  simp [is_valid_room_number, h1, h2, hn, hf]

/-- C3: `is_valid_room_number` accepts exactly the inputs that, after
stripping, are non-empty, contain no decimal point and parse as a Python
integer lying inside one of the `ROOM_BLOCKS` inclusive ranges, returning
the canonical `str(int)` form (no leading zeros, no decimal point); it
rejects empty/whitespace input, any input containing a decimal point,
non-numeric input, and out-of-range integers with an error naming the
valid ranges. -/
theorem c3_is_valid_room_number_spec (s : String) :
    ((is_valid_room_number s).1 = true ↔
      pyStrip s ≠ "" ∧ pyContainsChar (pyStrip s) '.' = false ∧
      ∃ n : Int, pyInt (pyStrip s) = some n ∧ ∃ p ∈ ROOM_BLOCKS, p.1 ≤ n ∧ n ≤ p.2) ∧
    (∀ n : Int, pyInt (pyStrip s) = some n → (is_valid_room_number s).1 = true →
      (is_valid_room_number s).2 = toString n) ∧
    (pyStrip s = "" → is_valid_room_number s = (false, "Room number cannot be empty")) ∧
    (pyStrip s ≠ "" → pyContainsChar (pyStrip s) '.' = true →
      is_valid_room_number s =
        (false, "Room number cannot have decimals. Use whole numbers only")) ∧
    (pyStrip s ≠ "" → pyContainsChar (pyStrip s) '.' = false → pyInt (pyStrip s) = none →
      is_valid_room_number s = (false, "Room number must be a valid whole number")) ∧
    (∀ n : Int, pyStrip s ≠ "" → pyContainsChar (pyStrip s) '.' = false →
      pyInt (pyStrip s) = some n → (∀ p ∈ ROOM_BLOCKS, ¬(p.1 ≤ n ∧ n ≤ p.2)) →
      is_valid_room_number s =
        (false, "Room " ++ toString n ++ " not in valid ranges: " ++ valid_ranges_str)) := by
  refine ⟨?_, ?_, fun h => ivrn_empty h, fun h1 h2 => ivrn_decimal h1 h2,
    fun h1 h2 hn => ivrn_nonnumeric h1 h2 hn, ?_⟩
  · constructor
    · intro hacc
      by_cases h1 : pyStrip s = ""
      · rw [ivrn_empty h1] at hacc
        exact absurd hacc (by decide)
      · by_cases h2 : pyContainsChar (pyStrip s) '.' = true
        · rw [ivrn_decimal h1 h2] at hacc
          exact absurd hacc (by decide)
        · rw [Bool.not_eq_true] at h2
          cases hn : pyInt (pyStrip s) with
          | none =>
            rw [ivrn_nonnumeric h1 h2 hn] at hacc
            exact absurd hacc (by decide)
          | some n =>
            cases hf : ROOM_BLOCKS.find? (fun p => decide (p.1 ≤ n) && decide (n ≤ p.2)) with
            | none =>
              rw [ivrn_out_of_range h1 h2 hn hf] at hacc
              simp at hacc
            | some p =>
              have hmem := List.mem_of_find?_eq_some hf
              have hp := List.find?_some hf
              simp only [Bool.and_eq_true, decide_eq_true_eq] at hp
              exact ⟨h1, h2, n, rfl, p, hmem, hp⟩
    · rintro ⟨h1, h2, n, hn, p, hmem, hlo, hhi⟩
      cases hf : ROOM_BLOCKS.find? (fun p => decide (p.1 ≤ n) && decide (n ≤ p.2)) with
      | none =>
        have := List.find?_eq_none.mp hf p hmem
        simp only [Bool.and_eq_true, decide_eq_true_eq] at this
        exact absurd ⟨hlo, hhi⟩ this
      | some q =>
        rw [ivrn_in_block h1 h2 hn hf]
  · intro n hn hacc
    by_cases h1 : pyStrip s = ""
    · rw [ivrn_empty h1] at hacc
      exact absurd hacc (by decide)
    · by_cases h2 : pyContainsChar (pyStrip s) '.' = true
      · rw [ivrn_decimal h1 h2] at hacc
        exact absurd hacc (by decide)
      · rw [Bool.not_eq_true] at h2
        cases hf : ROOM_BLOCKS.find? (fun p => decide (p.1 ≤ n) && decide (n ≤ p.2)) with
        | none =>
          rw [ivrn_out_of_range h1 h2 hn hf] at hacc
          simp at hacc
        | some p =>
          rw [ivrn_in_block h1 h2 hn hf]
  · intro n h1 h2 hn hnone
    have hf : ROOM_BLOCKS.find? (fun p => decide (p.1 ≤ n) && decide (n ≤ p.2)) = none := by
      rw [List.find?_eq_none]
      intro p hp
      simp only [Bool.and_eq_true, decide_eq_true_eq, not_and]
      intro hlo hhi
      exact hnone p hp ⟨hlo, hhi⟩
    exact ivrn_out_of_range h1 h2 hn hf

theorem c3_is_valid_room_number_spec_witness :
    (is_valid_room_number "105").1 = true ∧
    is_valid_room_number "105.0" =
      (false, "Room number cannot have decimals. Use whole numbers only") :=
  ⟨(c3_is_valid_room_number_spec "105").1.mpr
      ⟨by decide, by decide, 105, by decide, (100, 115), by decide, by decide, by decide⟩,
    (c3_is_valid_room_number_spec "105.0").2.2.2.1 (by decide) (by decide)⟩

/-- C6: `checkout_stay` with an id matching no stay but matching a
reservation with an assigned (truthy) room synthesizes a terminal
CHECKED_OUT stay whose planned dates are copied from the reservation and
whose actual check-in/check-out timestamps are both `now`, sets that room
VACANT and reports success; it reports failure, leaving the state
unchanged, exactly when the id matches neither a stay nor a reservation
with an assigned room. -/
theorem c6_checkout_missing_stay_spec (st : DBState) (sid : Nat) (now : String) :
    (∀ res, st.stays.find? (fun s => decide (s.id = sid)) = none →
      st.reservations.find? (fun r => decide (r.id = sid)) = some res →
      ∀ rm, res.room_number = some rm → rm ≠ "" →
      checkout_stay st sid now =
        ({ st with
            stays := st.stays ++
              [{ id := st.nextStayId, reservation_id := sid, room_number := rm,
                 status := StayStatus.CHECKED_OUT, checkin_planned := res.arrival_date,
                 checkout_planned := res.depart_date, checkin_actual := some now,
                 checkout_actual := some now }],
            rooms := st.rooms.map (fun r =>
              if r.room_number = rm then { r with status := RoomStatus.VACANT } else r),
            nextStayId := st.nextStayId + 1 }, true, "Checked out successfully")) ∧
    ((checkout_stay st sid now).2.1 = false ↔
      (st.stays.find? (fun s => decide (s.id = sid)) = none ∧
        ∀ res, st.reservations.find? (fun r => decide (r.id = sid)) = some res →
          pyTruthy res.room_number = false)) ∧
    ((checkout_stay st sid now).2.1 = false → (checkout_stay st sid now).1 = st) := by
  refine ⟨?_, ?_, ?_⟩
  · intro res hs hr rm hrm hne
    have ht : pyTruthy res.room_number = true := by
      rw [hrm]
      simp [pyTruthy, hne]
    simp only [checkout_stay, hs, hr, ht]
    simp [hrm]
  · cases hs : st.stays.find? (fun s => decide (s.id = sid)) with
    | some stay => simp [checkout_stay, hs]
    | none =>
      cases hr : st.reservations.find? (fun r => decide (r.id = sid)) with
      | none => simp [checkout_stay, hs, hr]
      | some res =>
        cases ht : pyTruthy res.room_number with
        | false => simp [checkout_stay, hs, hr, ht]
        | true => simp [checkout_stay, hs, hr, ht]
  · cases hs : st.stays.find? (fun s => decide (s.id = sid)) with
    | some stay =>
      intro h
      simp [checkout_stay, hs] at h
    | none =>
      cases hr : st.reservations.find? (fun r => decide (r.id = sid)) with
      | none =>
        intro _
        simp [checkout_stay, hs, hr]
      | some res =>
        cases ht : pyTruthy res.room_number with
        | false =>
          intro _
          simp [checkout_stay, hs, hr, ht]
        | true =>
          intro h
          simp [checkout_stay, hs, hr, ht] at h

theorem c6_checkout_missing_stay_spec_witness :
    checkout_stay stW6 9 "2025-08-03 10:00:00" =
      ({ stW6 with
          stays := [Stay.mk 1 9 "210" StayStatus.CHECKED_OUT "2025-08-01" "2025-08-03"
            (some "2025-08-03 10:00:00") (some "2025-08-03 10:00:00")],
          rooms := [{ room_number := "210", status := RoomStatus.VACANT }],
          nextStayId := 2 }, true, "Checked out successfully") := by
  rw [(c6_checkout_missing_stay_spec stW6 9 "2025-08-03 10:00:00").1 resW6 (by decide)
    (by decide) "210" (by decide) (by decide)]
  decide

/-- C7: round-trip reversibility.  `check_in` followed by
`cancel_check_in` on the created stay restores the stays table and leaves
the room VACANT; `check_out` on a CHECKED_IN stay followed by
`cancel_check_out` returns the stay to CHECKED_IN with `checkout_actual`
cleared to NULL and the room OCCUPIED. -/
theorem c7_reversibility :
    (∀ (st : DBState) (rid : Nat) (now : String) (res : Reservation),
      st.reservations.find? (fun r => decide (r.id = rid)) = some res →
      pyTruthy res.room_number = true →
      (is_valid_room_number (res.room_number.getD "")).1 = true →
      (∀ s ∈ st.stays, s.id ≠ st.nextStayId) →
      (checkin_reservation st rid now).2 = (true, "Checked in successfully") ∧
      (cancel_checkin (checkin_reservation st rid now).1 st.nextStayId).2 =
        (true, "Check-in cancelled successfully") ∧
      (cancel_checkin (checkin_reservation st rid now).1 st.nextStayId).1.stays = st.stays ∧
      (∀ r ∈ (cancel_checkin (checkin_reservation st rid now).1 st.nextStayId).1.rooms,
        r.room_number = (is_valid_room_number (res.room_number.getD "")).2 →
        r.status = RoomStatus.VACANT)) ∧
    (∀ (st : DBState) (sid : Nat) (now : String) (stay : Stay),
      st.stays.find? (fun s => decide (s.id = sid)) = some stay →
      stay.status = StayStatus.CHECKED_IN →
      (checkout_stay st sid now).2 = (true, "Checked out successfully") ∧
      (cancel_checkout (checkout_stay st sid now).1 sid).2.1 = true ∧
      (cancel_checkout (checkout_stay st sid now).1 sid).1.stays.find?
          (fun s => decide (s.id = sid)) =
        some { stay with status := StayStatus.CHECKED_IN, checkout_actual := none } ∧
      (∀ r ∈ (cancel_checkout (checkout_stay st sid now).1 sid).1.rooms,
        r.room_number = stay.room_number → r.status = RoomStatus.OCCUPIED)) := by
  constructor
  · intro st rid now res hres hroom hvalid hfresh
    have hckin : checkin_reservation st rid now =
        ({ st with
            stays := st.stays ++ [Stay.mk st.nextStayId rid
              (is_valid_room_number (res.room_number.getD "")).2 StayStatus.CHECKED_IN
              res.arrival_date res.depart_date (some now) none],
            rooms := (ensure_room_exists st.rooms
              (is_valid_room_number (res.room_number.getD "")).2).map (fun r =>
                if r.room_number = (is_valid_room_number (res.room_number.getD "")).2
                then { r with status := RoomStatus.OCCUPIED } else r),
            nextStayId := st.nextStayId + 1 }, true, "Checked in successfully") := by
      simp only [checkin_reservation, hres, hroom, hvalid]
      simp
    have hfind1 : (st.stays ++ [Stay.mk st.nextStayId rid
        (is_valid_room_number (res.room_number.getD "")).2 StayStatus.CHECKED_IN
        res.arrival_date res.depart_date (some now) none]).find?
          (fun s => decide (s.id = st.nextStayId)) =
        some (Stay.mk st.nextStayId rid
          (is_valid_room_number (res.room_number.getD "")).2 StayStatus.CHECKED_IN
          res.arrival_date res.depart_date (some now) none) := by
      rw [find?_append_of_all_false]
      · simp
      · intro a ha
        simp [hfresh a ha]
    have hstays : (st.stays ++ [Stay.mk st.nextStayId rid
        (is_valid_room_number (res.room_number.getD "")).2 StayStatus.CHECKED_IN
        res.arrival_date res.depart_date (some now) none]).filter
          (fun s => decide (s.id ≠ st.nextStayId)) = st.stays := by
      rw [List.filter_append]
      have h2 : st.stays.filter (fun s => decide (s.id ≠ st.nextStayId)) = st.stays :=
        List.filter_eq_self.mpr (fun a ha => by simp [hfresh a ha])
      rw [h2]
      simp
    refine ⟨by rw [hckin], ?_, ?_, ?_⟩
    · rw [hckin]
      simp only [cancel_checkin, hfind1]
    · rw [hckin]
      simp only [cancel_checkin, hfind1]
      exact hstays
    · rw [hckin]
      simp only [cancel_checkin, hfind1]
      intro r hr hrn
      obtain ⟨r₀, _, rfl⟩ := List.mem_map.mp hr
      by_cases h : r₀.room_number = (is_valid_room_number (res.room_number.getD "")).2
      · simp [h]
      · simp only [if_neg h] at hrn ⊢
        exact absurd hrn h
  · intro st sid now stay hfind hstat
    have hid : stay.id = sid := by
      have := List.find?_some hfind
      simpa using this
    have hckout : checkout_stay st sid now =
        ({ st with
            stays := st.stays.map (fun s =>
              if s.id = sid then
                { s with status := StayStatus.CHECKED_OUT, checkout_actual := some now }
              else s),
            rooms := st.rooms.map (fun r =>
              if r.room_number = stay.room_number
              then { r with status := RoomStatus.VACANT } else r) },
          true, "Checked out successfully") := by
      simp only [checkout_stay, hfind]
    have hpredinv : ∀ (a : Stay),
        (fun s => decide (s.id = sid))
            (if a.id = sid then
              { a with status := StayStatus.CHECKED_OUT, checkout_actual := some now }
            else a) =
          (fun s => decide (s.id = sid)) a := by
      intro a
      by_cases h : a.id = sid <;> simp [h]
    have hfind2 : (st.stays.map (fun s =>
        if s.id = sid then
          { s with status := StayStatus.CHECKED_OUT, checkout_actual := some now }
        else s)).find? (fun s => decide (s.id = sid)) =
        some { stay with status := StayStatus.CHECKED_OUT, checkout_actual := some now } := by
      rw [find?_map_of_pred_inv _ _ hpredinv, hfind]
      simp [hid]
    have hpredinv2 : ∀ (a : Stay),
        (fun s => decide (s.id = sid))
            (if a.id = sid then
              { a with status := StayStatus.CHECKED_IN, checkout_actual := none }
            else a) =
          (fun s => decide (s.id = sid)) a := by
      intro a
      by_cases h : a.id = sid <;> simp [h]
    refine ⟨by rw [hckout], ?_, ?_, ?_⟩
    · rw [hckout]
      simp only [cancel_checkout, hfind2]
      simp
    · rw [hckout]
      simp only [cancel_checkout, hfind2, ne_eq, not_true_eq_false, if_neg not_false]
      rw [find?_map_of_pred_inv _ _ hpredinv2, find?_map_of_pred_inv _ _ hpredinv, hfind]
      simp [hid]
    · rw [hckout]
      simp only [cancel_checkout, hfind2, ne_eq, not_true_eq_false, if_neg not_false]
      intro r hr hrn
      obtain ⟨r₁, hr₁, rfl⟩ := List.mem_map.mp hr
      by_cases h : r₁.room_number = stay.room_number
      · simp [h]
      · simp only [if_neg h] at hrn ⊢
        exact absurd hrn h

theorem c7_reversibility_witness :
    (cancel_checkin (checkin_reservation stW7 3 "2025-09-01 12:00:00").1
        stW7.nextStayId).1.stays = stW7.stays ∧
    (cancel_checkout (checkout_stay stW7b 5 "2025-09-02 11:00:00").1 5).1.stays.find?
        (fun s => decide (s.id = 5)) =
      some { stayW7 with status := StayStatus.CHECKED_IN, checkout_actual := none } :=
  ⟨(c7_reversibility.1 stW7 3 "2025-09-01 12:00:00" resW7 (by decide) (by decide)
      (by decide) (by decide)).2.2.1,
   (c7_reversibility.2 stW7b 5 "2025-09-02 11:00:00" stayW7 (by decide)
      (by decide)).2.2.1⟩

/-- C1 (code bug): room 105 already has a CHECKED_IN stay whose planned
interval overlaps guest B's requested interval, yet `checkin_reservation`
for guest B succeeds with "Checked in successfully" instead of failing
with a conflict naming guest A and 2025-06-05; the resulting stays table
violates the no-overlap invariant. -/
theorem c1_checkin_ignores_conflicting_stays :
    (∃ s ∈ stC1.stays, s.status = StayStatus.CHECKED_IN ∧ s.room_number = "105" ∧
      sqliteLt s.checkin_planned resB_C1.depart_date = true ∧
      sqliteLt resB_C1.arrival_date s.checkout_planned = true) ∧
    (checkin_reservation stC1 2 "2025-06-03 15:00:00").2 =
      (true, "Checked in successfully") ∧
    ¬ noOverlappingCheckedIn (checkin_reservation stC1 2 "2025-06-03 15:00:00").1.stays := by
  decide

/-- C2 (code bug): starting from a state with no stays, two successive
`checkin_reservation` calls for the same reservation both succeed and
leave two CHECKED_IN stays in room 105 with identical (hence overlapping)
planned intervals, so the CHECKED_IN no-overlap invariant is not
preserved by the engine's operations. -/
theorem c2_overlap_invariant_violated :
    noOverlappingCheckedIn stC2.stays ∧
    (checkin_reservation stC2 1 "2025-06-01 14:00:00").2.1 = true ∧
    (checkin_reservation (checkin_reservation stC2 1 "2025-06-01 14:00:00").1 1
      "2025-06-01 14:05:00").2.1 = true ∧
    ¬ noOverlappingCheckedIn
      (checkin_reservation (checkin_reservation stC2 1 "2025-06-01 14:00:00").1 1
        "2025-06-01 14:05:00").1.stays := by
  decide

/-- C8 (code bug): calling `checkin_reservation` twice for the same
reservation succeeds both times and produces two stays with status
CHECKED_IN sharing reservation_id 4, violating the at-most-one-active-stay
invariant. -/
theorem c8_two_active_stays_same_reservation :
    atMostOneActiveStayPerReservation stC8.stays ∧
    (checkin_reservation stC8 4 "2025-10-01 15:00:00").2.1 = true ∧
    (checkin_reservation (checkin_reservation stC8 4 "2025-10-01 15:00:00").1 4
      "2025-10-01 15:01:00").2.1 = true ∧
    ¬ atMostOneActiveStayPerReservation
      (checkin_reservation (checkin_reservation stC8 4 "2025-10-01 15:00:00").1 4
        "2025-10-01 15:01:00").1.stays := by
  decide
